import Mathlib

/-!
Verification of the layer SDK caching and transfer core.

The repository ships the public entry points (`src/layer/main.py`,
`src/layer/fabric.py`) and the unit tests of the model cache
(`src/test/unit/test_load_model_cache.py`).  The cache, transport,
transfer-state and flavor-loader implementations themselves are not part of
the tree, so those components are modelled from the specification; the
entry-point logic (`init`, `_ensure_asset_path_has_project_name`) is embedded
directly from `src/layer/main.py` and `src/layer/fabric.py`.
-/

/-- Modelled from the spec: `ResourceTransferState` (§3, §4.3) — the mutable
progress counters of one transfer call; the source file
`layer/contracts/runs.py` is not in the tree. -/
structure ResourceTransferState where
  bytes_transferred : Nat
  total_bytes : Nat
deriving Repr, DecidableEq

/-- Modelled from the spec: one progress update adds a completed chunk's byte
count to the running counter (§4.2, §4.3). -/
def ResourceTransferState.increment_transferred
    (st : ResourceTransferState) (n : Nat) : ResourceTransferState :=
  { st with bytes_transferred := st.bytes_transferred + n }

/-- Modelled from the spec: applying a sequence of progress updates in order
within one transfer call. -/
def ResourceTransferState.applyUpdates
    (st : ResourceTransferState) (us : List Nat) : ResourceTransferState :=
  List.foldl ResourceTransferState.increment_transferred st us

/-- Modelled from the spec: the error raised by the Object Storage Transport
(§4.2, §7) — the remote listing is empty, or an object still fails once the
bounded retries are exhausted. -/
inductive TransferError where
  | emptyListing : TransferError
  | retriesExhausted : TransferError
deriving Repr, DecidableEq

/-- Modelled from the spec: one remote object under the listed remote
location — its relative key, its byte size, and how many attempts at it fail
before one would succeed (an object that fails persistently has at least as
many failures as the attempt budget). -/
structure RemoteObject where
  key : String
  size : Nat
  failures : Nat
deriving Repr, DecidableEq

/-- Modelled from the spec: transferring one object under a bounded attempt
budget (§4.2) — the object's bytes when some attempt within the budget
succeeds, `TransferError.retriesExhausted` otherwise. -/
def downloadObject (attempts : Nat) (o : RemoteObject) : Except TransferError Nat :=
  if o.failures < attempts then Except.ok o.size
  else Except.error TransferError.retriesExhausted

/-- Modelled from the spec: transferring each listed object in turn, updating
the transfer state with each completed object's bytes; the first object whose
retries are exhausted fails the whole call (§4.2). -/
def downloadAll (attempts : Nat) (objs : List RemoteObject)
    (st : ResourceTransferState) : Except TransferError ResourceTransferState :=
  match objs with
  | [] => Except.ok st
  | o :: rest =>
    match downloadObject attempts o with
    | Except.error e => Except.error e
    | Except.ok n => downloadAll attempts rest (st.increment_transferred n)

/-- Modelled from the spec: `download_dir` (§4.2) — lists all objects under
the remote location, fails with `TransferError.emptyListing` when the listing
is empty, and otherwise transfers every object with bounded retries while
updating the transfer state; the source `layer/utils/s3.py` is not in the
tree. -/
def download_dir (attempts : Nat) (objs : List RemoteObject)
    (st : ResourceTransferState) : Except TransferError ResourceTransferState :=
  if objs.isEmpty then Except.error TransferError.emptyListing
  else downloadAll attempts objs st

lemma applyUpdates_le (st : ResourceTransferState) (us : List Nat) :
    st.bytes_transferred ≤ (st.applyUpdates us).bytes_transferred := by
  induction us generalizing st with
  | nil => exact Nat.le_refl _
  | cons u rest ih =>
    calc st.bytes_transferred
        ≤ (st.increment_transferred u).bytes_transferred := Nat.le_add_right _ _
      _ ≤ _ := ih (st.increment_transferred u)

lemma applyUpdates_append (st : ResourceTransferState) (l₁ l₂ : List Nat) :
    st.applyUpdates (l₁ ++ l₂) = (st.applyUpdates l₁).applyUpdates l₂ := by
  simp [ResourceTransferState.applyUpdates, List.foldl_append]

/-- C5: within one transfer call, `bytes_transferred` is non-decreasing across
any sequence of progress updates — after any further updates its value is at
least its value before them. -/
theorem bytes_transferred_monotone (st : ResourceTransferState)
    (pre suf : List Nat) :
    (st.applyUpdates pre).bytes_transferred ≤
      (st.applyUpdates (pre ++ suf)).bytes_transferred := by
  rw [applyUpdates_append]
  exact applyUpdates_le _ suf

lemma downloadAll_ok_bytes (attempts : Nat) (objs : List RemoteObject)
    (st st' : ResourceTransferState)
    (h : downloadAll attempts objs st = Except.ok st') :
    st'.bytes_transferred =
      st.bytes_transferred + (objs.map RemoteObject.size).sum := by
  induction objs generalizing st with
  | nil =>
    simp [downloadAll] at h
    simp [← h]
  | cons o rest ih =>
    by_cases hf : o.failures < attempts
    · have hstep : downloadAll attempts (o :: rest) st =
          downloadAll attempts rest (st.increment_transferred o.size) := by
        simp [downloadAll, downloadObject, hf]
      rw [hstep] at h
      have := ih (st.increment_transferred o.size) h
      simp [ResourceTransferState.increment_transferred] at this
      simp [this]
      ring
    · simp [downloadAll, downloadObject, hf] at h

/-- C6: when `download_dir` returns successfully, the final transfer state's
`bytes_transferred` is the initial value plus the sum of the byte sizes of all
objects listed under the remote prefix. -/
theorem download_dir_final_bytes (attempts : Nat) (objs : List RemoteObject)
    (st st' : ResourceTransferState)
    (h : download_dir attempts objs st = Except.ok st') :
    st'.bytes_transferred =
      st.bytes_transferred + (objs.map RemoteObject.size).sum := by
  by_cases he : objs.isEmpty
  · simp [download_dir, he] at h
  · rw [download_dir, if_neg he] at h
    exact downloadAll_ok_bytes attempts objs st st' h

theorem download_dir_final_bytes_witness :
    (ResourceTransferState.mk 5 5).bytes_transferred =
      (ResourceTransferState.mk 0 5).bytes_transferred +
        (([RemoteObject.mk "a" 5 0]).map RemoteObject.size).sum :=
  download_dir_final_bytes 1 [RemoteObject.mk "a" 5 0]
    (ResourceTransferState.mk 0 5) (ResourceTransferState.mk 5 5) rfl

lemma downloadAll_error_iff (attempts : Nat) (objs : List RemoteObject)
    (st : ResourceTransferState) :
    (∃ e, downloadAll attempts objs st = Except.error e) ↔
      ∃ o ∈ objs, attempts ≤ o.failures := by
  induction objs generalizing st with
  | nil => simp [downloadAll]
  | cons o rest ih =>
    by_cases hf : o.failures < attempts
    · have hnot : ¬ attempts ≤ o.failures := Nat.not_le.mpr hf
      simp [downloadAll, downloadObject, hf, hnot,
        ih (st.increment_transferred o.size)]
    · have hle : attempts ≤ o.failures := Nat.le_of_not_lt hf
      simp [downloadAll, downloadObject, hf, hle]

/-- C7: `download_dir` fails with a `TransferError` exactly when the remote
listing is empty or some object's failures outlast the bounded attempt
budget; it never succeeds in either of those situations. -/
theorem download_dir_error_iff (attempts : Nat) (objs : List RemoteObject)
    (st : ResourceTransferState) :
    (∃ e, download_dir attempts objs st = Except.error e) ↔
      (objs = [] ∨ ∃ o ∈ objs, attempts ≤ o.failures) := by
  by_cases he : objs.isEmpty
  · have : objs = [] := List.isEmpty_iff.mp he
    subst this
    simp [download_dir]
  · have hne : objs ≠ [] := fun hcon => he (by simp [hcon])
    rw [download_dir, if_neg he]
    simp [downloadAll_error_iff, hne]

/-- Modelled from the spec: the Local Cache rooted at a directory (§3, §6);
a completed entry for a key lives at `<cache_root>/<key>`; the source
`layer/cache.py` is not in the tree. -/
structure Cache where
  cache_dir : String
deriving Repr, DecidableEq

/-- The final (published) path of a key's entry: `<cache_root>/<key>`. -/
def Cache.pathFor (c : Cache) (key : String) : String :=
  c.cache_dir ++ "/" ++ key

/-- Modelled from the spec: the observable on-disk cache state — the keys
whose entries have been atomically published at their final path, and the
per-key locks currently held.  Staging directories are private (§4.1, §6) and
therefore not part of the observable state: only the atomic rename publishes
an entry. -/
structure CacheState where
  completed : List String
  locked : List String
deriving Repr, DecidableEq

/-- Modelled from the spec: `get_path` (§4.1) — the entry path when a
completed entry exists for the key, else `none`; only published (renamed)
entries count, never staging leftovers. -/
def get_path (c : Cache) (s : CacheState) (key : String) : Option String :=
  if key ∈ s.completed then some (c.pathFor key) else none

/-- Modelled from the spec: `reserve_and_populate` (§4.1) — acquire the
exclusive per-key lock, re-check for a completed entry, on a miss run the
populate function against a private staging directory and atomically rename
staging → final on success, and release the lock on every exit path, the
failure path included.  The populate function acts on a caller context `σ`
(the theorems instantiate it with an invocation counter) and may fail
with `ε`. -/
def reserve_and_populate {σ ε : Type} (c : Cache) (s : CacheState) (key : String)
    (populate_fn : σ → Except ε σ) (ctx : σ) :
    CacheState × σ × Except ε String :=
  let s1 : CacheState := { s with locked := key :: s.locked }
  match get_path c s1 key with
  | some p => ({ s1 with locked := s1.locked.erase key }, ctx, Except.ok p)
  | none =>
    match populate_fn ctx with
    | Except.ok ctx2 =>
      ({ completed := key :: s1.completed, locked := s1.locked.erase key },
        ctx2, Except.ok (c.pathFor key))
    | Except.error e =>
      ({ s1 with locked := s1.locked.erase key }, ctx, Except.error e)

/-- Modelled from the spec: `clear` (§4.1) deletes the entire cache root, so
no completed entry survives; locks are advisory handles held by processes and
are not entries.  Exposed to users as `layer.clear_cache`
(src/layer/main.py line 596), which is `Cache().clear()`. -/
def CacheState.clear (s : CacheState) : CacheState :=
  { completed := [], locked := s.locked }

/-- Modelled from the spec: the flavor loader's common path
(`ModelFlavor.load_from_s3`, §4.4): with `no_cache` the artifact is
downloaded into a fresh disposable directory and loaded from there, leaving
the cache untouched; otherwise the loader runs `reserve_and_populate` with a
successful download as the populate function and loads from the returned
path.  Returns the cache state, the running count of `download_dir`
invocations, and the directory `load_from_directory` is called with.  The
source `layer/flavors/base.py` is not in the tree; the behaviour is fixed by
`src/test/unit/test_load_model_cache.py`. -/
def load_from_s3 (c : Cache) (no_cache : Bool) (key : String)
    (fresh_dir : String) (s : CacheState) (downloads : Nat) :
    CacheState × Nat × String :=
  if no_cache then
    (s, downloads + 1, fresh_dir)
  else
    let r := @reserve_and_populate Nat Unit c s key
      (fun k => Except.ok (k + 1)) downloads
    (r.1, r.2.1,
      match r.2.2 with
      | Except.ok p => p
      | Except.error _ => c.pathFor key)

/-- Modelled from the spec: N callers serialized by the blocking exclusive
per-key lock (§4.1, §5), each running `reserve_and_populate` for the same key
in turn; the context counts invocations of the populate function (a
successful download) and the paths returned to the callers are collected. -/
def runCallers (c : Cache) (key : String) (n : Nat) (s : CacheState)
    (count : Nat) : CacheState × Nat × List String :=
  match n with
  | 0 => (s, count, [])
  | Nat.succ m =>
    let r := @reserve_and_populate Nat Unit c s key
      (fun k => Except.ok (k + 1)) count
    let rest := runCallers c key m r.1 r.2.1
    (rest.1, rest.2.1,
      (match r.2.2 with
       | Except.ok p => [p]
       | Except.error _ => []) ++ rest.2.2)

lemma get_path_locked (c : Cache) (s : CacheState) (L : List String)
    (key : String) :
    get_path c { s with locked := L } key = get_path c s key := rfl

lemma erase_cons_self (key : String) (L : List String) :
    (key :: L).erase key = L := by
  simp [List.erase_cons]

/-- C8: clearing the whole cache root makes every previously-cached key a
miss: after `clear`, `get_path` returns `none`. -/
theorem clear_then_get_path_none (c : Cache) (s : CacheState) (key p : String)
    (h : get_path c s key = some p) :
    get_path c s.clear key = none := by
  simp [get_path, CacheState.clear]

theorem clear_then_get_path_none_witness :
    get_path (Cache.mk "root") ((CacheState.mk ["k"] []).clear) "k" = none :=
  clear_then_get_path_none (Cache.mk "root") (CacheState.mk ["k"] []) "k"
    ((Cache.mk "root").pathFor "k") (by simp [get_path])

lemma reserve_and_populate_miss_ok (σ ε : Type) (c : Cache) (s : CacheState)
    (key : String) (populate_fn : σ → Except ε σ) (ctx ctx2 : σ)
    (hmiss : get_path c s key = none)
    (hok : populate_fn ctx = Except.ok ctx2) :
    reserve_and_populate c s key populate_fn ctx =
      ({ completed := key :: s.completed, locked := s.locked }, ctx2,
        Except.ok (c.pathFor key)) := by
  unfold reserve_and_populate
  simp only [get_path_locked, hmiss, hok, erase_cons_self]

lemma reserve_and_populate_miss_error (σ ε : Type) (c : Cache)
    (s : CacheState) (key : String) (populate_fn : σ → Except ε σ)
    (ctx : σ) (e : ε)
    (hmiss : get_path c s key = none)
    (hfail : populate_fn ctx = Except.error e) :
    reserve_and_populate c s key populate_fn ctx =
      (s, ctx, Except.error e) := by
  unfold reserve_and_populate
  simp only [get_path_locked, hmiss, hfail, erase_cons_self]

lemma reserve_and_populate_hit (σ ε : Type) (c : Cache) (s : CacheState)
    (key : String) (populate_fn : σ → Except ε σ) (ctx : σ) (p : String)
    (hhit : get_path c s key = some p) :
    reserve_and_populate c s key populate_fn ctx =
      (s, ctx, Except.ok p) := by
  unfold reserve_and_populate
  simp only [get_path_locked, hhit, erase_cons_self]

lemma get_path_publish (c : Cache) (s : CacheState) (key : String)
    (L : List String) :
    get_path c { completed := key :: s.completed, locked := L } key =
      some (c.pathFor key) := by
  simp [get_path]

/-- C3: when the populate function fails inside `reserve_and_populate`, the
failure propagates, no partial entry is published at the final path
(`get_path` still misses, staging is never visible as a hit), the per-key
lock is released, and a subsequent retry with a succeeding populate function
publishes the entry and succeeds. -/
theorem populate_failure_preserves (σ ε : Type) (c : Cache) (s : CacheState)
    (key : String) (populate_fn : σ → Except ε σ) (ctx : σ) (e : ε)
    (hmiss : get_path c s key = none)
    (hfail : populate_fn ctx = Except.error e) :
    (reserve_and_populate c s key populate_fn ctx).2.2 = Except.error e ∧
    get_path c (reserve_and_populate c s key populate_fn ctx).1 key = none ∧
    (reserve_and_populate c s key populate_fn ctx).1.locked = s.locked ∧
    (∀ (retry_fn : σ → Except ε σ) (ctx2 ctx3 : σ),
      retry_fn ctx2 = Except.ok ctx3 →
      (reserve_and_populate c (reserve_and_populate c s key populate_fn ctx).1
          key retry_fn ctx2).2.2 = Except.ok (c.pathFor key) ∧
      get_path c (reserve_and_populate c
          (reserve_and_populate c s key populate_fn ctx).1 key retry_fn
          ctx2).1 key = some (c.pathFor key)) := by
  rw [reserve_and_populate_miss_error σ ε c s key populate_fn ctx e hmiss hfail]
  refine ⟨rfl, hmiss, rfl, ?_⟩
  intro retry_fn ctx2 ctx3 hok
  rw [reserve_and_populate_miss_ok σ ε c s key retry_fn ctx2 ctx3 hmiss hok]
  exact ⟨rfl, get_path_publish c s key s.locked⟩

theorem populate_failure_preserves_witness :
    get_path (Cache.mk "root")
      (@reserve_and_populate Nat Unit (Cache.mk "root") (CacheState.mk [] [])
        "k" (fun _ => Except.error ()) 0).1 "k" = none :=
  (populate_failure_preserves Nat Unit (Cache.mk "root")
    (CacheState.mk [] []) "k" (fun _ => Except.error ()) 0 ()
    (by simp [get_path]) rfl).2.1

lemma runCallers_hit (c : Cache) (key : String) (n : Nat) (s : CacheState)
    (count : Nat) (p : String) (hhit : get_path c s key = some p) :
    runCallers c key n s count = (s, count, List.replicate n p) := by
  induction n with
  | zero => simp [runCallers]
  | succ m ih =>
    rw [runCallers,
      reserve_and_populate_hit Nat Unit c s key (fun k => Except.ok (k + 1))
        count p hhit]
    simp [ih, List.replicate_succ]

/-- C2: with the blocking exclusive per-key lock serializing the N concurrent
callers of `reserve_and_populate` for one key, the populate function is
invoked exactly once in total and every one of the N callers receives the
same final path. -/
theorem concurrent_populate_once (c : Cache) (s : CacheState) (key : String)
    (n : Nat) (hmiss : get_path c s key = none) (hn : 1 ≤ n) :
    (runCallers c key n s 0).2.1 = 1 ∧
      (runCallers c key n s 0).2.2 = List.replicate n (c.pathFor key) := by
  obtain ⟨m, rfl⟩ : ∃ m, n = m + 1 :=
    ⟨n - 1, (Nat.succ_pred_eq_of_pos hn).symm⟩
  rw [runCallers,
    reserve_and_populate_miss_ok Nat Unit c s key (fun k => Except.ok (k + 1))
      0 1 hmiss rfl,
    runCallers_hit c key m _ 1 (c.pathFor key)
      (get_path_publish c s key s.locked)]
  simp [List.replicate_succ]

theorem concurrent_populate_once_witness :
    (runCallers (Cache.mk "root") "k" 2 (CacheState.mk [] []) 0).2.1 = 1 ∧
      (runCallers (Cache.mk "root") "k" 2 (CacheState.mk [] []) 0).2.2 =
        List.replicate 2 ((Cache.mk "root").pathFor "k") :=
  concurrent_populate_once (Cache.mk "root") (CacheState.mk [] []) "k" 2
    (by simp [get_path]) (by decide)

/-- C1: a first load of a key that is not yet cached populates the cache with
exactly one `download_dir` invocation, publishes the entry at the final path,
and loads from that path; a second load of the same key is then a cache hit:
`download_dir` is not invoked again, `load_from_directory` is invoked with
the identical path, and the cache state is unchanged. -/
theorem second_load_hits_cache (c : Cache) (s : CacheState)
    (key fresh1 fresh2 : String) (d : Nat)
    (hmiss : get_path c s key = none) :
    (load_from_s3 c false key fresh1 s d).2.1 = d + 1 ∧
    (load_from_s3 c false key fresh1 s d).2.2 = c.pathFor key ∧
    get_path c (load_from_s3 c false key fresh1 s d).1 key =
      some (c.pathFor key) ∧
    (load_from_s3 c false key fresh2 (load_from_s3 c false key fresh1 s d).1
        (load_from_s3 c false key fresh1 s d).2.1).2.1 =
      (load_from_s3 c false key fresh1 s d).2.1 ∧
    (load_from_s3 c false key fresh2 (load_from_s3 c false key fresh1 s d).1
        (load_from_s3 c false key fresh1 s d).2.1).2.2 = c.pathFor key ∧
    (load_from_s3 c false key fresh2 (load_from_s3 c false key fresh1 s d).1
        (load_from_s3 c false key fresh1 s d).2.1).1 =
      (load_from_s3 c false key fresh1 s d).1 := by
  have h1 : load_from_s3 c false key fresh1 s d =
      ({ completed := key :: s.completed, locked := s.locked }, d + 1,
        c.pathFor key) := by
    rw [load_from_s3]
    simp only [Bool.false_eq_true, if_false,
      reserve_and_populate_miss_ok Nat Unit c s key
        (fun k => Except.ok (k + 1)) d (d + 1) hmiss rfl]
  have h2 : load_from_s3 c false key fresh2
      { completed := key :: s.completed, locked := s.locked } (d + 1) =
      ({ completed := key :: s.completed, locked := s.locked }, d + 1,
        c.pathFor key) := by
    rw [load_from_s3]
    simp only [Bool.false_eq_true, if_false,
      reserve_and_populate_hit Nat Unit c
        { completed := key :: s.completed, locked := s.locked } key
        (fun k => Except.ok (k + 1)) (d + 1) (c.pathFor key)
        (get_path_publish c s key s.locked)]
  rw [h1]
  refine ⟨rfl, rfl, get_path_publish c s key s.locked, ?_, ?_, ?_⟩ <;>
    simp [h2]

theorem second_load_hits_cache_witness :
    get_path (Cache.mk "root")
      (load_from_s3 (Cache.mk "root") false "k" "tmp1"
        (CacheState.mk [] []) 0).1 "k" =
      some ((Cache.mk "root").pathFor "k") :=
  (second_load_hits_cache (Cache.mk "root") (CacheState.mk [] []) "k"
    "tmp1" "tmp2" 0 (by simp [get_path])).2.2.1

/-- C4: with `no_cache`, a fetch invokes `download_dir` into the fresh
disposable directory and loads from that directory, and the cache state — in
particular the final cache directory for the key — is left untouched. -/
theorem no_cache_bypasses_cache (c : Cache) (key fresh : String)
    (s : CacheState) (d : Nat) :
    load_from_s3 c true key fresh s d = (s, d + 1, fresh) ∧
    get_path c (load_from_s3 c true key fresh s d).1 key =
      get_path c s key :=
  ⟨rfl, rfl⟩

/-- The `Fabric` enumeration from src/layer/fabric.py, one member per
fabric string value. -/
inductive Fabric where
  | F_XXSMALL : Fabric
  | F_XSMALL : Fabric
  | F_SMALL : Fabric
  | F_MEDIUM : Fabric
  | F_GPU_SMALL : Fabric
deriving Repr, DecidableEq

/-- Each member's string value, from src/layer/fabric.py. -/
def Fabric.value : Fabric → String
  | .F_XXSMALL => "f-xxsmall"
  | .F_XSMALL => "f-xsmall"
  | .F_SMALL => "f-small"
  | .F_MEDIUM => "f-medium"
  | .F_GPU_SMALL => "f-gpu-small"

/-- Enum lookup by value, as `Fabric(key)` in Python: `some` member on a
match, `none` where the lookup would raise `ValueError`. -/
def Fabric.ofValue (key : String) : Option Fabric :=
  if key = "f-xxsmall" then some .F_XXSMALL
  else if key = "f-xsmall" then some .F_XSMALL
  else if key = "f-small" then some .F_SMALL
  else if key = "f-medium" then some .F_MEDIUM
  else if key = "f-gpu-small" then some .F_GPU_SMALL
  else none

/-- Python truthiness of an optional list argument: `None` and `[]` are
falsy. -/
def truthyList (xs : Option (List String)) : Bool :=
  match xs with
  | none => false
  | some l => !l.isEmpty

/-- Python truthiness of an optional string argument: `None` and `""` are
falsy. -/
def truthyStr (s : Option String) : Bool :=
  match s with
  | none => false
  | some v => !v.isEmpty

/-- The `ValueError`s `layer.init` can raise (src/layer/main.py): both pip
arguments were given, or the fabric string is not a `Fabric` member. -/
inductive InitError where
  | bothPipArgs : InitError
  | invalidFabric : InitError
deriving Repr, DecidableEq

/-- The arguments `init` forwards to `InitProjectRunner.setup_project` once
validation has passed (src/layer/main.py lines 358-364). -/
structure ProjectSetup where
  project_name : String
  fabric : Option Fabric
  pip_packages : Option (List String)
  pip_requirements_file : Option String
deriving Repr, DecidableEq

/-- `layer.init` from src/layer/main.py lines 325-364: first — before any
project setup — raise `ValueError` when both `pip_packages` and
`pip_requirements_file` are truthy; then compute
`Fabric(fabric) if fabric else None` (which may itself raise `ValueError`
for an unknown fabric string); then run the project setup, recorded here as
the `ProjectSetup` the function forwards. -/
def init (project_name : String) (fabric : Option String)
    (pip_packages : Option (List String))
    (pip_requirements_file : Option String) :
    Except InitError ProjectSetup :=
  if truthyList pip_packages && truthyStr pip_requirements_file then
    Except.error InitError.bothPipArgs
  else if truthyStr fabric then
    match Fabric.ofValue (fabric.getD "") with
    | none => Except.error InitError.invalidFabric
    | some fb =>
      Except.ok ⟨project_name, some fb, pip_packages, pip_requirements_file⟩
  else Except.ok ⟨project_name, none, pip_packages, pip_requirements_file⟩

/-- C9: `init` raises the both-pip-arguments `ValueError` exactly when both
`pip_packages` and `pip_requirements_file` are provided and non-empty; with
at most one of them provided, that error is never raised.  In `init` the
check precedes any project setup. -/
theorem init_both_pip_args_value_error (project_name : String)
    (fabric : Option String) (pip_packages : Option (List String))
    (pip_requirements_file : Option String) :
    (init project_name fabric pip_packages pip_requirements_file =
        Except.error InitError.bothPipArgs) ↔
      (truthyList pip_packages = true ∧
        truthyStr pip_requirements_file = true) := by
  by_cases hb : truthyList pip_packages && truthyStr pip_requirements_file
  · rw [init, if_pos hb]
    simp only [Bool.and_eq_true] at hb
    simp [hb]
  · rw [init, if_neg hb]
    simp only [Bool.and_eq_true] at hb
    constructor
    · intro h
      by_cases hf : truthyStr fabric = true
      · rw [if_pos hf] at h
        cases hfv : Fabric.ofValue (fabric.getD "") <;> simp [hfv] at h
      · rw [if_neg hf] at h
        exact absurd h (by simp)
    · intro h
      exact absurd h hb

/-- Asset kinds, from the uses of `AssetType.DATASET` / `AssetType.MODEL` in
src/layer/main.py. -/
inductive AssetType where
  | DATASET : AssetType
  | MODEL : AssetType
deriving Repr, DecidableEq

/-- Modelled from the spec: a parsed asset path — an optional project name
plus the asset's kind and name; `layer/projects/asset.py` is not in the
tree, only its use in src/layer/main.py. -/
structure AssetPath where
  project_name : Option String
  asset_type : AssetType
  asset_name : String
deriving Repr, DecidableEq

/-- Modelled from the spec: `has_project` — whether the parsed path already
includes a project name. -/
def AssetPath.has_project (p : AssetPath) : Bool :=
  p.project_name.isSome

/-- Modelled from the spec: `with_project_name` — a copy of the path with
the project name set. -/
def AssetPath.with_project_name (p : AssetPath) (name : String) : AssetPath :=
  { p with project_name := some name }

/-- The exception raised by src/layer/main.py when no project name is
available for an asset path. -/
inductive ProjectInitializationException where
  | missingProjectName : ProjectInitializationException
deriving Repr, DecidableEq

/-- `_ensure_asset_path_has_project_name` from src/layer/main.py lines
272-284, as called by `get_dataset` and `get_model` on the parsed asset
path: a path that already has a project is returned unchanged; otherwise,
when the global current project name is Python-falsy (absent or empty), a
`ProjectInitializationException` is raised; otherwise the path is extended
with the current project name. -/
def ensure_asset_path_has_project_name (current_project : Option String)
    (composite : AssetPath) :
    Except ProjectInitializationException AssetPath :=
  if composite.has_project then Except.ok composite
  else if !truthyStr current_project then
    Except.error ProjectInitializationException.missingProjectName
  else Except.ok (composite.with_project_name (current_project.getD ""))

/-- C10: for an asset path passed to `get_dataset`/`get_model`, when the
parsed path lacks a project name and no global current project name is set,
`ProjectInitializationException` is raised; when the current project name is
set, the path used for the fetch is the input path extended with it; and a
path that already includes a project is returned unchanged. -/
theorem ensure_asset_path_spec (current_project : Option String)
    (composite : AssetPath) :
    (composite.has_project = true →
      ensure_asset_path_has_project_name current_project composite =
        Except.ok composite) ∧
    (composite.has_project = false → truthyStr current_project = false →
      ensure_asset_path_has_project_name current_project composite =
        Except.error ProjectInitializationException.missingProjectName) ∧
    (∀ v : String, composite.has_project = false →
      current_project = some v → truthyStr current_project = true →
      ensure_asset_path_has_project_name current_project composite =
        Except.ok (composite.with_project_name v)) := by
  refine ⟨fun hp => ?_, fun hp hc => ?_, fun v hp hc htr => ?_⟩
  · rw [ensure_asset_path_has_project_name, if_pos hp]
  · rw [ensure_asset_path_has_project_name, if_neg (by simp [hp]),
      if_pos (by simp [hc])]
  · subst hc
    rw [ensure_asset_path_has_project_name, if_neg (by simp [hp]),
      if_neg (by simp [htr])]
    rfl

theorem ensure_asset_path_spec_witness :
    (ensure_asset_path_has_project_name (some "proj")
        (AssetPath.mk (some "p") AssetType.MODEL "m") =
      Except.ok (AssetPath.mk (some "p") AssetType.MODEL "m")) ∧
    (ensure_asset_path_has_project_name none
        (AssetPath.mk none AssetType.MODEL "m") =
      Except.error ProjectInitializationException.missingProjectName) ∧
    (ensure_asset_path_has_project_name (some "proj")
        (AssetPath.mk none AssetType.DATASET "d") =
      Except.ok ((AssetPath.mk none AssetType.DATASET "d").with_project_name
        "proj")) :=
  ⟨(ensure_asset_path_spec (some "proj")
      (AssetPath.mk (some "p") AssetType.MODEL "m")).1 rfl,
   (ensure_asset_path_spec none (AssetPath.mk none AssetType.MODEL "m")).2.1
      rfl rfl,
   (ensure_asset_path_spec (some "proj")
      (AssetPath.mk none AssetType.DATASET "d")).2.2 "proj" rfl rfl
      (by decide)⟩
